import Mathlib

/-!
Shallow embedding of the hybrid forecasting engine of the Data-Jam repository
(`src/models/prophet_model.py`, `src/models/xgboost_model.py`,
`src/models/ensemble_model.py`) together with proofs settling the frozen
claims about its natural-language specification.

Conventions of the embedding:
* dates are absolute day numbers (`ℤ`); one calendar day is `+ 1`;
* the Gregorian month-of-date function is an abstract parameter
  `month : ℤ → ℕ` (the claims never depend on the actual calendar);
* numeric values are `ℚ`; the floating-point square root used by
  `numpy.std` / `pandas.std` is an abstract parameter `sqrtQ : ℚ → ℚ`
  (no settled claim depends on its values);
* fitted third-party models (Prophet's decomposition, the XGBoost
  regressor) are black-box functions, exactly as the spec treats them;
* Python exceptions are `Except String`; a Python `None` result is
  `Option.none`; a pandas missing value (`NaN` from `shift`/`rolling`)
  is `Option.none` in a column of type `Option ℚ`.
-/

namespace DataJam

/-- One row of the historical frame: its date, the `Renewable_Score`
target, and the (total) valuation of the weather covariate columns.
Which weather columns actually exist in the frame is recorded at frame
level in `Frame.cols`, matching pandas, where columns belong to the
DataFrame and not to an individual row. -/
structure Row where
  date : ℤ
  score : ℚ
  wx : String → ℚ

/-- A historical DataFrame: the list of weather covariate columns it
contains and its rows. -/
structure Frame where
  cols : List String
  rows : List Row

/-- The fixed candidate list of weather columns, from
`xgboost_model.py` (`prepare_features` and `predict_future`). -/
def weatherCols : List String :=
  ["PRCP", "TAVG", "TMIN", "TMAX", "SNOW", "SNWD", "elevation"]

/-- `df["date"].max()` over a nonempty frame (0 for the empty frame,
which every settled claim excludes by hypothesis). -/
def maxDate (fr : Frame) : ℤ :=
  match fr.rows with
  | [] => 0
  | r :: rs => rs.foldl (fun a b => max a b.date) r.date

/-- Arithmetic mean as computed by `numpy.mean` / `pandas.mean`
(on a nonempty list; the empty case is never reached in the code). -/
def npMean (l : List ℚ) : ℚ := l.sum / l.length

/-- Population variance (`numpy.std` squares to this: ddof = 0). -/
def popVar (l : List ℚ) : ℚ :=
  (l.map (fun x => (x - npMean l) ^ 2)).sum / l.length

/-- Sample variance (`pandas.std` squares to this: ddof = 1). -/
def sampleVar (l : List ℚ) : ℚ :=
  (l.map (fun x => (x - npMean l) ^ 2)).sum / (l.length - 1 : ℚ)

/-- The trailing `n` elements of a list (`l[-n:]` in pandas/numpy). -/
def lastN (n : ℕ) (l : List α) : List α := l.drop (l.length - n)

/-- Python-call plumbing: a call with the given keyword-argument names
binds against a `def` with the given parameter names; any keyword not
among the parameters raises `TypeError`. -/
def pythonKwCallOk (params kwargs : List String) : Bool :=
  kwargs.all params.contains

/-- The parameter list of `ProphetForecast.predict` as implemented:
`def predict(self, days_ahead=30)` (prophet_model.py line 25). -/
def prophetPredictParams : List String := ["days_ahead"]

/-- The keyword arguments that `EnsembleForecaster.predict`,
`EnsembleForecaster.adaptive_predict` and the dashboard pass to
`ProphetForecast.predict` (ensemble_model.py lines 67 and 96). -/
def ensembleProphetCallKwargs : List String := ["include_uncertainty"]

/-- The `TypeError` raised when the keyword does not bind. -/
def typeErrorMsg : String :=
  "TypeError: predict() got an unexpected keyword argument include_uncertainty"

/-- `KeyError` raised by `df.iloc[-1][[...]]` when a requested weather
column is absent from the frame. -/
def keyErrorMsg : String := "KeyError: missing weather column"

/-- `sklearn.exceptions.NotFittedError` raised by the XGBoost sklearn
wrapper when `predict` is called before `fit`. -/
def notFittedMsg : String := "NotFittedError: need to call fit beforehand"

/-- `ZeroDivisionError` raised by `self.prophet_weight /= total` when
the weight sum is zero. -/
def zeroDivMsg : String := "ZeroDivisionError: float division by zero"

/-- `EnsembleForecaster.__init__` (ensemble_model.py lines 26-42): store
both weights, then normalize each by their sum.  The division raises
`ZeroDivisionError` when the sum is zero; no sign check is performed. -/
def ensembleForecasterInit (prophet_weight xgb_weight : ℚ) :
    Except String (ℚ × ℚ) :=
  let total := prophet_weight + xgb_weight
  if total = 0 then .error zeroDivMsg
  else .ok (prophet_weight / total, xgb_weight / total)

/-- `adaptive_xgb_weight` (ensemble_model.py line 111): the XGBoost
weight at day-out position `k` for horizon `days_ahead`,
`np.maximum(0.3, 0.8 - (days_out / days_ahead) * 0.5)`. -/
def adaptive_xgb_weight (k days_ahead : ℕ) : ℚ :=
  max (3 / 10) (8 / 10 - ((k : ℚ) / (days_ahead : ℚ)) * (5 / 10))

/-- `adaptive_prophet_weight` (ensemble_model.py line 112):
`1 - adaptive_xgb_weight`. -/
def adaptive_prophet_weight (k days_ahead : ℕ) : ℚ :=
  1 - adaptive_xgb_weight k days_ahead

/-- A placeholder row, the value `rows.getLastD` falls back to; every
settled claim about row access carries a nonemptiness hypothesis, so the
fallback is never the value actually read. -/
def defaultRow : Row := ⟨0, 0, fun _ => 0⟩

/-- `df["Renewable_Score"]` as a list, in frame order. -/
def histScores (fr : Frame) : List ℚ := fr.rows.map (·.score)

/-- `pandas.Series.median`: middle element of the sorted values, or the
average of the two middle elements for an even count.  Only ever applied
to nonempty columns in the code (the same-month branch). -/
def median (l : List ℚ) : ℚ :=
  let s := List.insertionSort (· ≤ ·) l
  if s.length % 2 = 1 then s.getD (s.length / 2) 0
  else (s.getD (s.length / 2 - 1) 0 + s.getD (s.length / 2) 0) / 2

/-- `df[df["date"].dt.month == next_date.month]`
(xgboost_model.py line 94). -/
def sameMonthRows (month : ℤ → ℕ) (fr : Frame) (d : ℤ) : List Row :=
  fr.rows.filter (fun r => month r.date = month d)

/-- The per-step exogenous covariates of `predict_future`
(xgboost_model.py lines 93-104): when some historical observation shares
the target date's calendar month, the per-column median over those
observations, restricted to the weather columns present in the frame;
otherwise the last observation's raw values for all seven weather
columns unconditionally — `df.iloc[-1][[...]]` raises `KeyError` as soon
as one of them is absent from the frame. -/
def weatherFeatures (month : ℤ → ℕ) (fr : Frame) (d : ℤ) :
    Except String (List (String × ℚ)) :=
  let sm := sameMonthRows month fr d
  if sm.isEmpty then
    if weatherCols.all (fun c => fr.cols.contains c) then
      .ok (weatherCols.map (fun c => (c, (fr.rows.getLastD defaultRow).wx c)))
    else .error keyErrorMsg
  else
    .ok ((weatherCols.filter (fun c => fr.cols.contains c)).map
      (fun c => (c, median (sm.map (fun r => r.wx c)))))

/-- The four lag/rolling entries of one `predict_future` feature row. -/
structure LagFeats where
  lag_1 : ℚ
  lag_7 : ℚ
  rolling_mean_7 : ℚ
  rolling_std_7 : ℚ

/-- The `i == 0` branch of `predict_future`'s lag-feature computation
(xgboost_model.py lines 107-111): everything from the trailing window of
actual history. -/
def lagFeaturesFirst (sqrtQ : ℚ → ℚ) (hist : List ℚ) : LagFeats where
  lag_1 := hist.getLastD 0
  lag_7 := npMean (lastN 7 hist)
  rolling_mean_7 := npMean (lastN 7 hist)
  rolling_std_7 := sqrtQ (sampleVar (lastN 7 hist))

/-- The `i > 0` branch of `predict_future`'s lag-feature computation
(xgboost_model.py lines 112-117).  `prior` is the list of already
forecast values; `recent_forecasts = forecasts[-7:]`.  Each feature
switches wholesale between the forecast pool and the trailing actual
history, depending on how many forecasts exist. -/
def lagFeaturesNext (sqrtQ : ℚ → ℚ) (hist prior : List ℚ) : LagFeats :=
  let recent := lastN 7 prior
  { lag_1 := prior.getLastD 0
    lag_7 := if 7 ≤ recent.length then npMean recent else npMean (lastN 7 hist)
    rolling_mean_7 :=
      if recent.isEmpty then npMean (lastN 7 hist) else npMean recent
    rolling_std_7 :=
      if 2 ≤ recent.length then sqrtQ (popVar recent)
      else sqrtQ (sampleVar (lastN 7 hist)) }

/-- One feature row handed to the fitted regressor by `predict_future`
(`X_next`, xgboost_model.py lines 120-128). -/
structure PredRow where
  wx : List (String × ℚ)
  lag_1 : ℚ
  lag_7 : ℚ
  rolling_mean_7 : ℚ
  rolling_std_7 : ℚ

/-- A fitted XGBoost regressor, as the narrow black box the spec
declares it to be: a prediction function plus the fitted
`feature_names_in_` / `feature_importances_` arrays. -/
structure XModel where
  predictRow : PredRow → ℚ
  featureNames : List String
  importances : List ℚ

/-- `self.model.predict(X_next)` (xgboost_model.py line 131): the
sklearn wrapper raises `NotFittedError` when the instance was never
fitted; the forecaster state is `Option XModel` (`none` = Untrained). -/
def modelPredictStep (model : Option XModel) (row : PredRow) :
    Except String ℚ :=
  match model with
  | none => .error notFittedMsg
  | some m => .ok (m.predictRow row)

/-- The feature row `X_next` assembled at step `i` of `predict_future`
(xgboost_model.py lines 106-128), given the step's weather covariates
`wf` and the `forecasts` accumulated so far in `acc`. -/
def predictStepRow (sqrtQ : ℚ → ℚ) (fr : Frame) (i : ℕ)
    (acc : List (ℤ × ℚ)) (wf : List (String × ℚ)) : PredRow :=
  let lf := if i = 0 then lagFeaturesFirst sqrtQ (histScores fr)
    else lagFeaturesNext sqrtQ (histScores fr) (acc.map (·.2))
  ⟨wf, lf.lag_1, lf.lag_7, lf.rolling_mean_7, lf.rolling_std_7⟩

/-- The recursive loop of `predict_future` (xgboost_model.py lines
90-132): `remaining` steps left, `i` the 0-based step counter, `acc` the
`forecasts` list built so far; each step's target date is
`max_date + (i + 1)` days. -/
def predictLoop (month : ℤ → ℕ) (sqrtQ : ℚ → ℚ) (model : Option XModel)
    (fr : Frame) :
    ℕ → ℕ → List (ℤ × ℚ) → Except String (List (ℤ × ℚ))
  | 0, _, acc => .ok acc
  | remaining + 1, i, acc => do
    let wf ← weatherFeatures month fr (maxDate fr + ((i : ℤ) + 1))
    let y ← modelPredictStep model (predictStepRow sqrtQ fr i acc wf)
    predictLoop month sqrtQ model fr remaining (i + 1)
      (acc ++ [(maxDate fr + ((i : ℤ) + 1), y)])

/-- `XGBoostForecast.predict_future(df, days_ahead)` (xgboost_model.py
lines 81-134). -/
def predict_future (month : ℤ → ℕ) (sqrtQ : ℚ → ℚ) (model : Option XModel)
    (fr : Frame) (days_ahead : ℕ) : Except String (List (ℤ × ℚ)) :=
  predictLoop month sqrtQ model fr days_ahead 0 []

/-- `sort_values('importance', ascending=False)`. -/
def sortByImportanceDesc (l : List (String × ℚ)) : List (String × ℚ) :=
  List.insertionSort (fun a b => b.2 ≤ a.2) l

/-- `XGBoostForecast.get_feature_importance` (xgboost_model.py lines
139-150): an untrained model has no `feature_importances_` attribute
(the sklearn `NotFittedError` behind `hasattr` subclasses
`AttributeError`), so the guard prints a warning and returns `None`;
otherwise the name/importance pairs sorted by descending importance. -/
def get_feature_importance (model : Option XModel) :
    Option (List (String × ℚ)) :=
  match model with
  | none => none
  | some m => some (sortByImportanceDesc (m.featureNames.zip m.importances))

/-- `df.sort_values("date")` on rows (stable insertion sort; the claims
always apply it to already date-sorted frames, where any stable or
unstable sort agrees). -/
def sortRowsByDate (l : List Row) : List Row :=
  List.insertionSort (fun a b => a.date ≤ b.date) l

/-- One row of the feature matrix `X` built by `prepare_features`:
weather covariates plus the four derived columns, which pandas leaves as
`NaN` (`none`) where the shift/rolling window is incomplete. -/
structure FeatRow where
  wx : List (String × ℚ)
  lag_1 : Option ℚ
  lag_7 : Option ℚ
  rolling_mean_7 : Option ℚ
  rolling_std_7 : Option ℚ
deriving DecidableEq

/-- One featurized row at 0-based position `p.1` of the date-sorted
frame: the pandas `shift`/`rolling` columns are `none` exactly where
pandas leaves `NaN` — `lag_1` needs one prior row, `lag_7` seven prior
rows, and the two rolling statistics a full trailing 7-row window. -/
def featurizeRow (sqrtQ : ℚ → ℚ) (cols : List String) (scores : List ℚ)
    (p : ℕ × Row) : FeatRow × ℚ :=
  (⟨(weatherCols.filter (fun c => cols.contains c)).map
      (fun c => (c, p.2.wx c)),
    if 1 ≤ p.1 then scores.get? (p.1 - 1) else none,
    if 7 ≤ p.1 then scores.get? (p.1 - 7) else none,
    if 6 ≤ p.1 then some (npMean (lastN 7 (scores.take (p.1 + 1)))) else none,
    if 6 ≤ p.1 then some (sqrtQ (sampleVar (lastN 7 (scores.take (p.1 + 1)))))
      else none⟩, p.2.score)

/-- `df.dropna(subset=["lag_1", "lag_7", "rolling_mean_7"])`: a row
survives when none of those three columns is missing. -/
def keptRow (q : FeatRow × ℚ) : Bool :=
  q.1.lag_1.isSome && q.1.lag_7.isSome && q.1.rolling_mean_7.isSome

/-- `XGBoostForecast.prepare_features` (xgboost_model.py lines 36-61):
sort by date, add `lag_1` (shift 1), `lag_7` (shift 7), `rolling_mean_7`
and `rolling_std_7` (trailing 7-row window, full window required), drop
the rows where `lag_1`, `lag_7` or `rolling_mean_7` is missing, select
the candidate weather columns present in the frame, and return the
feature matrix together with the aligned target vector. -/
def prepare_features (sqrtQ : ℚ → ℚ) (fr : Frame) :
    List FeatRow × List ℚ :=
  let rows := sortRowsByDate fr.rows
  let scores := rows.map (·.score)
  let kept := (rows.enum.map (featurizeRow sqrtQ fr.cols scores)).filter keptRow
  (kept.map (·.1), kept.map (·.2))

/-- A fitted Prophet decomposition model, as a black box: the training
dates it saw (`history_dates`) and its fitted forecast function
`yhat`. -/
structure ProphetFitted where
  histDates : List ℤ
  yhat : ℤ → ℚ

/-- Prophet's internal `history_dates`: the unique training dates,
sorted ascending. -/
def historyDates (l : List ℤ) : List ℤ :=
  (List.insertionSort (· ≤ ·) l).dedup

/-- Maximum of a date list (`history_dates.max()`; 0 for the empty
list, which every settled claim excludes). -/
def listMaxD : List ℤ → ℤ
  | [] => 0
  | h :: t => t.foldl max h

/-- `Prophet.make_future_dataframe(periods)` with its default
`include_history=True`: the sorted unique training dates followed by
`periods` contiguous days after the last training date. -/
def make_future_dataframe (histDates : List ℤ) (periods : ℕ) : List ℤ :=
  historyDates histDates ++
    (List.range periods).map (fun (i : ℕ) => listMaxD histDates + ((i : ℤ) + 1))

/-- `ProphetForecast.predict(days_ahead)` (prophet_model.py lines
25-29): predict over `make_future_dataframe` and return the
(date, forecast) columns — in-sample rows included, and no
lower/upper-bound columns. -/
def prophetPredict (p : ProphetFitted) (days_ahead : ℕ) : List (ℤ × ℚ) :=
  (make_future_dataframe p.histDates days_ahead).map (fun d => (d, p.yhat d))

/-- One row of an ensemble forecast
(`date, forecast, forecast_prophet, forecast_xgb`). -/
structure EnsembleRow where
  date : ℤ
  forecast : ℚ
  forecast_prophet : ℚ
  forecast_xgb : ℚ

/-- `pd.merge(prophet_forecast, xgb_forecast, on="date")`: the inner
join by exact date, in left order, first match on the right. -/
def mergeOnDate (a b : List (ℤ × ℚ)) : List (ℤ × ℚ × ℚ) :=
  a.filterMap (fun q => (List.lookup q.1 b).map (fun vb => (q.1, q.2, vb)))

/-- `EnsembleForecaster.predict` (ensemble_model.py lines 55-89).  Its
first action is `self.prophet.predict(days_ahead,
include_uncertainty=False)`; `ProphetForecast.predict` accepts no such
keyword, so the call raises `TypeError` before anything else runs.  The
code after the call (XGBoost forecast, inner join, weighted average) is
embedded behind the keyword-binding check. -/
def ensemblePredict (p : ProphetFitted) (model : Option XModel)
    (prophet_weight xgb_weight : ℚ) (month : ℤ → ℕ) (sqrtQ : ℚ → ℚ)
    (fr : Frame) (days_ahead : ℕ) : Except String (List EnsembleRow) :=
  if pythonKwCallOk prophetPredictParams ensembleProphetCallKwargs then do
    let pf := prophetPredict p days_ahead
    let xf ← predict_future month sqrtQ model fr days_ahead
    let merged := mergeOnDate pf xf
    .ok (merged.map (fun t =>
      ⟨t.1, prophet_weight * t.2.1 + xgb_weight * t.2.2, t.2.1, t.2.2⟩))
  else .error typeErrorMsg

/-- `EnsembleForecaster.adaptive_predict` (ensemble_model.py lines
91-119): same structure, with the per-position adaptive weights; it
begins with the same ill-formed keyword call. -/
def adaptivePredict (p : ProphetFitted) (model : Option XModel)
    (month : ℤ → ℕ) (sqrtQ : ℚ → ℚ) (fr : Frame) (days_ahead : ℕ) :
    Except String (List EnsembleRow) :=
  if pythonKwCallOk prophetPredictParams ensembleProphetCallKwargs then do
    let pf := prophetPredict p days_ahead
    let xf ← predict_future month sqrtQ model fr days_ahead
    let merged := mergeOnDate pf xf
    .ok (merged.enum.map (fun q =>
      let w := adaptive_xgb_weight (q.1 + 1) days_ahead
      ⟨q.2.1, (1 - w) * q.2.2.1 + w * q.2.2.2, q.2.2.1, q.2.2.2⟩))
  else .error typeErrorMsg

/-- One row of the evaluation report. -/
structure MetricRow where
  model : String
  RMSE : ℚ
  MAE : ℚ
  MAPE : ℚ
deriving DecidableEq

/-- Python `round` (banker's rounding) to an integer. -/
def roundHalfEven (x : ℚ) : ℤ :=
  let n := Int.floor x
  let frac := x - n
  if frac < 1 / 2 then n
  else if 1 / 2 < frac then n + 1
  else if n % 2 = 0 then n else n + 1

/-- `round(x, d)`. -/
def roundTo (d : ℕ) (x : ℚ) : ℚ :=
  (roundHalfEven (x * 10 ^ d) : ℚ) / 10 ^ d

/-- `calc_metrics` (ensemble_model.py lines 151-160). -/
def calcMetrics (sqrtQ : ℚ → ℚ) (y_true y_pred : List ℚ) (name : String) :
    MetricRow where
  model := name
  RMSE := roundTo 4 (sqrtQ (npMean (List.zipWith (fun t q => (t - q) ^ 2) y_true y_pred)))
  MAE := roundTo 4 (npMean (List.zipWith (fun t q => |t - q|) y_true y_pred))
  MAPE := roundTo 2 (npMean (List.zipWith
    (fun t q => |(t - q) / (t + 1 / 10 ^ 10)|) y_true y_pred) * 100)

/-- `EnsembleForecaster.evaluate` (ensemble_model.py lines 121-173):
with fewer than `test_days + 30` rows it prints a warning and returns
`None` (no exception); otherwise it splits off the last `test_days`
rows, retrains both sub-models on the remainder (fitting is the
abstract `fitP`/`fitX`), calls `self.predict` — which raises the
`TypeError` of `ensemblePredict` — and would then score the three
variants. -/
def evaluate (month : ℤ → ℕ) (sqrtQ : ℚ → ℚ)
    (fitP : Frame → ProphetFitted) (fitX : Frame → XModel)
    (prophet_weight xgb_weight : ℚ) (fr : Frame) (test_days : ℕ) :
    Except String (Option (List MetricRow)) :=
  if fr.rows.length < test_days + 30 then .ok none
  else
    let train_fr : Frame := ⟨fr.cols, fr.rows.take (fr.rows.length - test_days)⟩
    let test_rows := fr.rows.drop (fr.rows.length - test_days)
    match ensemblePredict (fitP train_fr) (some (fitX train_fr))
        prophet_weight xgb_weight month sqrtQ train_fr test_days with
    | .error e => .error e
    | .ok preds =>
      let actual := test_rows.map (·.score)
      .ok (some
        [calcMetrics sqrtQ actual (preds.map (·.forecast)) "Ensemble",
         calcMetrics sqrtQ actual (preds.map (·.forecast_prophet)) "Prophet",
         calcMetrics sqrtQ actual (preds.map (·.forecast_xgb)) "XGBoost"])

/-- Modelled from the spec's words, for the refinement comparison of the
lag-pool claim: "the trailing 7 values of a pool that prefers previously
forecast values and fills any shortfall with trailing actual historical
target values" — the last 7 elements of history-then-forecasts. -/
def specTrailing7Pool (hist prior : List ℚ) : List ℚ :=
  lastN 7 (hist ++ prior)

/-- Whether an embedded Python call returned normally (no exception). -/
def isOkE {α : Type} : Except String α → Bool
  | .ok _ => true
  | .error _ => false

/-- Concrete test fixtures used to instantiate theorems on explicit
inputs. -/
def wRow (d : ℤ) (s : ℚ) : Row := ⟨d, s, fun _ => 0⟩

/-- A two-day frame carrying all seven weather columns. -/
def wFrameFull : Frame := ⟨weatherCols, [wRow 0 (1 / 2), wRow 1 (1 / 2)]⟩

/-- A constant fitted regressor. -/
def wModelHalf : XModel := ⟨fun _ => 1 / 2, [], []⟩

/-- A calendar in which every date falls in the same month. -/
def wMonthConst : ℤ → ℕ := fun _ => 1

/-- A calendar in which every nonnegative date has its own month. -/
def wMonthDay : ℤ → ℕ := fun d => d.toNat

/-- A one-day frame missing all weather columns except `PRCP`. -/
def wFrameMissing : Frame := ⟨["PRCP"], [wRow 0 (1 / 2)]⟩

/-- A one-day frame missing all weather columns except `TAVG`. -/
def wFrameMissingB : Frame := ⟨["TAVG"], [wRow 0 (1 / 3)]⟩

/-- A five-day frame (too short for feature engineering). -/
def wFrame5 : Frame :=
  ⟨[], [wRow 0 0, wRow 1 0, wRow 2 0, wRow 3 0, wRow 4 0]⟩

/-- An eight-day frame (the minimum for feature engineering). -/
def wFrame8 : Frame :=
  ⟨[], [wRow 0 0, wRow 1 (1 / 10), wRow 2 (2 / 10), wRow 3 (3 / 10),
    wRow 4 (4 / 10), wRow 5 (5 / 10), wRow 6 (6 / 10), wRow 7 (7 / 10)]⟩

end DataJam

namespace DataJam

/-- C8 counterexample: construction with the negative weight sum
(-1) + (-1) = -2 is not rejected — `__init__` silently produces an
instance (whose stored weights are 1/2 and 1/2). -/
theorem ensembleInit_negative_sum_not_rejected :
    ensembleForecasterInit (-1) (-1) = .ok (1 / 2, 1 / 2) := by
  norm_num [ensembleForecasterInit]

/-- C8 amended: if the two constructor weights have nonzero sum, the
constructed Ensemble Combiner stores weights normalized to sum exactly 1
regardless of the input scale (including negative sums, which are not
rejected); only a zero sum fails, with `ZeroDivisionError`. -/
theorem ensembleInit_normalizes_nonzero_sum_and_fails_only_on_zero
    (pw xw : ℚ) :
    (pw + xw = 0 → ensembleForecasterInit pw xw = .error zeroDivMsg) ∧
    (pw + xw ≠ 0 →
      ensembleForecasterInit pw xw =
        .ok (pw / (pw + xw), xw / (pw + xw)) ∧
      pw / (pw + xw) + xw / (pw + xw) = 1) := by
  constructor
  · intro h
    simp [ensembleForecasterInit, h]
  · intro h
    refine ⟨by simp [ensembleForecasterInit, h], ?_⟩
    field_simp

/-- C8 witness: at the concrete inputs (2, 6) construction succeeds with
weights 1/4 and 3/4 summing to 1, and at (1/2, -1/2) it fails with
`ZeroDivisionError`. -/
theorem ensembleInit_witness :
    (ensembleForecasterInit 2 6 = .ok (2 / 8, 6 / 8) ∧
      (2 : ℚ) / 8 + 6 / 8 = 1) ∧
    ensembleForecasterInit (1 / 2) (-(1 / 2)) = .error zeroDivMsg := by
  constructor
  · have h := (ensembleInit_normalizes_nonzero_sum_and_fails_only_on_zero
      2 6).2 (by norm_num)
    norm_num at h ⊢
    exact h
  · have h := (ensembleInit_normalizes_nonzero_sum_and_fails_only_on_zero
      (1 / 2) (-(1 / 2))).1 (by norm_num)
    exact h

/-- C1: `ProphetForecast.predict` accepts only `days_ahead`, so the
keyword call `predict(days_ahead, include_uncertainty=False)` made by
both `EnsembleForecaster.predict` and
`EnsembleForecaster.adaptive_predict` raises `TypeError` before any
forecasting happens: neither ensemble entry point ever completes. -/
theorem ensemble_predict_calls_raise_type_error
    (p : ProphetFitted) (model : Option XModel) (pw xw : ℚ)
    (month : ℤ → ℕ) (sqrtQ : ℚ → ℚ) (fr : Frame) (days_ahead : ℕ) :
    ensemblePredict p model pw xw month sqrtQ fr days_ahead
      = .error typeErrorMsg ∧
    adaptivePredict p model month sqrtQ fr days_ahead
      = .error typeErrorMsg := by
  have h : pythonKwCallOk prophetPredictParams ensembleProphetCallKwargs
      = false := by decide
  constructor
  · simp [ensemblePredict, h]
  · simp [adaptivePredict, h]

/-- C2 counterexample: for a Seasonal Forecaster trained on the three
dates 0, 1, 2, `predict` with horizon 2 returns dates 0, 1, 2, 3, 4 —
five rows, not the claimed two, and the in-sample training dates are
included rather than starting at the last training date plus one. -/
theorem prophet_predict_includes_history_rows :
    (prophetPredict ⟨[0, 1, 2], fun _ => 0⟩ 2).map (·.1) = [0, 1, 2, 3, 4] ∧
    ¬ (prophetPredict ⟨[0, 1, 2], fun _ => 0⟩ 2).length = 2 := by
  constructor
  · decide
  · decide

/-- C2 amended: `predict` with horizon `h` returns the sorted unique
training dates followed by `h` contiguous future days, so its length is
the unique-training-date count plus `h`; only its last `h` rows are the
future extension, which starts at the last training date plus one day
and is strictly increasing. -/
theorem prophet_predict_shape (p : ProphetFitted) (h : ℕ) :
    (prophetPredict p h).length = (historyDates p.histDates).length + h ∧
    (prophetPredict p h).map (·.1)
      = historyDates p.histDates ++
        (List.range h).map (fun (i : ℕ) => listMaxD p.histDates + ((i : ℤ) + 1)) ∧
    List.Sorted (· < ·)
      ((List.range h).map
        (fun (i : ℕ) => listMaxD p.histDates + ((i : ℤ) + 1))) := by
  refine ⟨?_, ?_, ?_⟩
  · rw [prophetPredict, make_future_dataframe, List.length_map,
      List.length_append, List.length_map, List.length_range]
  · rw [prophetPredict, make_future_dataframe, List.map_map]
    exact List.map_id _
  · have hr : List.Sorted (· < ·) (List.range h) := List.sorted_lt_range h
    refine List.Pairwise.map _ (fun a b hab => ?_) hr
    have : (a : ℤ) < b := by exact_mod_cast hab
    omega

/-- C7 counterexample: for horizon 30 at day-out position 1 the
adaptive XGBoost weight is 47/60 = 0.78333..., not approximately 0.7917:
it differs from 0.7917 by more than 0.005. -/
theorem adaptive_weight_day1_not_0_7917 :
    adaptive_xgb_weight 1 30 = 47 / 60 ∧
    ¬ |adaptive_xgb_weight 1 30 - 7917 / 10000| ≤ 5 / 1000 := by
  have h : adaptive_xgb_weight 1 30 = 47 / 60 := by
    rw [adaptive_xgb_weight, max_eq_right (by norm_num)]
    norm_num
  refine ⟨h, ?_⟩
  rw [h]
  rw [abs_of_neg (by norm_num)]
  norm_num

/-- C7 amended: the adaptive XGBoost weight at day-out position `k` for
horizon `H` is `max(0.3, 0.8 - (k/H)*0.5)`; it is non-increasing in `k`,
floored at 0.3, the seasonal weight is its complement to 1, and the
weight at the final position `k = H` is exactly 0.3 (the value at
`k = 1`, `H = 30` is 47/60 ≈ 0.7833, settled separately). -/
theorem adaptive_weight_monotone_floored (H k k' : ℕ)
    (hk : 1 ≤ k) (hkk' : k ≤ k') (hk'H : k' ≤ H) :
    adaptive_xgb_weight k H
      = max (3 / 10) (8 / 10 - ((k : ℚ) / (H : ℚ)) * (5 / 10)) ∧
    3 / 10 ≤ adaptive_xgb_weight k H ∧
    adaptive_xgb_weight k' H ≤ adaptive_xgb_weight k H ∧
    adaptive_prophet_weight k H + adaptive_xgb_weight k H = 1 ∧
    adaptive_xgb_weight H H = 3 / 10 := by
  have hH1 : 1 ≤ H := le_trans hk (le_trans hkk' hk'H)
  have hH : (0 : ℚ) < H := by exact_mod_cast Nat.lt_of_lt_of_le Nat.zero_lt_one hH1
  refine ⟨rfl, le_max_left _ _, ?_, by rw [adaptive_prophet_weight]; ring, ?_⟩
  · rw [adaptive_xgb_weight, adaptive_xgb_weight]
    have hkk : (k : ℚ) ≤ (k' : ℚ) := by exact_mod_cast hkk'
    gcongr
  · rw [adaptive_xgb_weight, div_self (ne_of_gt hH)]
    norm_num

/-- Unfolding lemma for the `Except` monad bind on a success. -/
theorem exceptBind_ok {α β : Type} (a : α) (k : α → Except String β) :
    ((Except.ok a : Except String α) >>= k) = k a := rfl

/-- Unfolding lemma for the `Except` monad bind on an error. -/
theorem exceptBind_error {α β : Type} (e : String)
    (k : α → Except String β) :
    ((Except.error e : Except String α) >>= k) = Except.error e := rfl

/-- When every weather column is present in the frame, the per-step
covariate computation succeeds on both of its paths. -/
theorem weatherFeatures_ok_of_cols (month : ℤ → ℕ) (fr : Frame) (d : ℤ)
    (hcols : ∀ c ∈ weatherCols, c ∈ fr.cols) :
    ∃ wf, weatherFeatures month fr d = .ok wf := by
  rw [weatherFeatures]
  by_cases hsm : (sameMonthRows month fr d).isEmpty
  · rw [if_pos hsm, if_pos ?_]
    · exact ⟨_, rfl⟩
    · rw [List.all_eq_true]
      intro c hc
      exact List.elem_eq_true_of_mem (hcols c hc)
  · rw [if_neg hsm]
    exact ⟨_, rfl⟩

/-- The dates of any successful run of the recursive forecast loop:
the accumulator's dates followed by one date per remaining step,
`max_date + (i + j + 1)` for `j = 0, 1, ...`. -/
theorem predictLoop_ok_dates (month : ℤ → ℕ) (sqrtQ : ℚ → ℚ)
    (model : Option XModel) (fr : Frame) :
    ∀ (remaining i : ℕ) (acc out : List (ℤ × ℚ)),
      predictLoop month sqrtQ model fr remaining i acc = .ok out →
      out.map (·.1) = acc.map (·.1) ++ (List.range remaining).map
        (fun (j : ℕ) => maxDate fr + ((i : ℤ) + (j : ℤ) + 1)) := by
  intro remaining
  induction remaining with
  | zero =>
    intro i acc out h
    have h' : (Except.ok acc : Except String (List (ℤ × ℚ))) = .ok out := h
    cases h'
    simp
  | succ r ih =>
    intro i acc out h
    have h' : (weatherFeatures month fr (maxDate fr + ((i : ℤ) + 1)) >>=
        fun wf => modelPredictStep model (predictStepRow sqrtQ fr i acc wf)
          >>= fun y => predictLoop month sqrtQ model fr r (i + 1)
            (acc ++ [(maxDate fr + ((i : ℤ) + 1), y)])) = .ok out := h
    cases hwf : weatherFeatures month fr (maxDate fr + ((i : ℤ) + 1)) with
    | error e =>
      rw [hwf, exceptBind_error] at h'
      exact Except.noConfusion h'
    | ok wf =>
      rw [hwf, exceptBind_ok] at h'
      cases hmp : modelPredictStep model (predictStepRow sqrtQ fr i acc wf) with
      | error e =>
        rw [hmp, exceptBind_error] at h'
        exact Except.noConfusion h'
      | ok y =>
        rw [hmp, exceptBind_ok] at h'
        rw [ih (i + 1) (acc ++ [(maxDate fr + ((i : ℤ) + 1), y)]) out h']
        simp only [List.map_append, List.map_cons, List.map_nil,
          List.append_assoc, List.singleton_append, List.nil_append,
          List.range_succ_eq_map, List.map_map]
        congr 1
        congr 1
        refine List.map_congr_left (fun j _ => ?_)
        simp only [Function.comp_apply]
        push_cast
        ring

/-- Every run of the recursive forecast loop over a frame carrying all
seven weather columns and a fitted model succeeds. -/
theorem predictLoop_total (month : ℤ → ℕ) (sqrtQ : ℚ → ℚ) (m : XModel)
    (fr : Frame) (hcols : ∀ c ∈ weatherCols, c ∈ fr.cols) :
    ∀ (remaining i : ℕ) (acc : List (ℤ × ℚ)),
      ∃ out, predictLoop month sqrtQ (some m) fr remaining i acc = .ok out := by
  intro remaining
  induction remaining with
  | zero => intro i acc; exact ⟨acc, rfl⟩
  | succ r ih =>
    intro i acc
    obtain ⟨wf, hwf⟩ := weatherFeatures_ok_of_cols month fr
      (maxDate fr + ((i : ℤ) + 1)) hcols
    obtain ⟨out, hout⟩ := ih (i + 1)
      (acc ++ [(maxDate fr + ((i : ℤ) + 1),
        m.predictRow (predictStepRow sqrtQ fr i acc wf))])
    refine ⟨out, ?_⟩
    show (weatherFeatures month fr (maxDate fr + ((i : ℤ) + 1)) >>=
      fun wf => modelPredictStep (some m) (predictStepRow sqrtQ fr i acc wf)
        >>= fun y => predictLoop month sqrtQ (some m) fr r (i + 1)
          (acc ++ [(maxDate fr + ((i : ℤ) + 1), y)])) = .ok out
    rw [hwf, exceptBind_ok]
    exact hout

/-- C3 amended: whenever `predict_future(series, N)` returns at all, it
returns exactly N rows whose dates are the contiguous daily dates
`last_date + 1, ..., last_date + N`; and it does return for every
trained model on a nonempty series carrying all seven weather columns.
(A series missing a weather column with no observation in the first
target month makes it raise `KeyError` instead — the C10 asymmetry.) -/
theorem predict_future_shape_and_totality :
    (∀ (month : ℤ → ℕ) (sqrtQ : ℚ → ℚ) (model : Option XModel) (fr : Frame)
        (N : ℕ) (out : List (ℤ × ℚ)),
      predict_future month sqrtQ model fr N = .ok out →
      out.length = N ∧
      out.map (·.1) = (List.range N).map
        (fun (j : ℕ) => maxDate fr + ((j : ℤ) + 1))) ∧
    (∀ (month : ℤ → ℕ) (sqrtQ : ℚ → ℚ) (m : XModel) (fr : Frame) (N : ℕ),
      fr.rows ≠ [] → (∀ c ∈ weatherCols, c ∈ fr.cols) →
      ∃ out, predict_future month sqrtQ (some m) fr N = .ok out) := by
  constructor
  · intro month sqrtQ model fr N out h
    have hd := predictLoop_ok_dates month sqrtQ model fr N 0 [] out h
    simp only [List.map_nil, List.nil_append] at hd
    constructor
    · have := congrArg List.length hd
      simpa using this
    · rw [hd]
      refine List.map_congr_left (fun j _ => ?_)
      push_cast
      ring
  · intro month sqrtQ m fr N _ hcols
    exact predictLoop_total month sqrtQ m fr hcols N 0 []

/-- C3 witness: the amended statement instantiated on a concrete
two-day frame with all weather columns, a constant fitted model, and
horizon 2: the run succeeds and yields dates `max+1`, `max+2`. -/
theorem predict_future_shape_witness :
    ([((2 : ℤ), (1 : ℚ) / 2), (3, 1 / 2)].length = 2 ∧
      [((2 : ℤ), (1 : ℚ) / 2), (3, 1 / 2)].map (·.1)
        = (List.range 2).map
          (fun (j : ℕ) => maxDate wFrameFull + ((j : ℤ) + 1))) ∧
    isOkE (predict_future wMonthConst (fun q => q) (some wModelHalf)
      wFrameFull 2) = true := by
  refine ⟨predict_future_shape_and_totality.1 wMonthConst (fun q => q)
      (some wModelHalf) wFrameFull 2 [((2 : ℤ), (1 : ℚ) / 2), (3, 1 / 2)]
      (by rfl), ?_⟩
  obtain ⟨out, hout⟩ := predict_future_shape_and_totality.2 wMonthConst
    (fun q => q) wModelHalf wFrameFull 2 (List.cons_ne_nil _ _)
    (fun c hc => hc)
  rw [hout]
  rfl

/-- C3 counterexample: on the one-day series that only carries the
`TAVG` column and has no observation in the first target date's month,
`predict_future(series, 1)` raises `KeyError` — it does not return one
row (nor any rows at all). -/
theorem predict_future_missing_column_no_rows :
    predict_future wMonthDay (fun q => q) (some wModelHalf) wFrameMissingB 1
      = .error keyErrorMsg ∧
    isOkE (predict_future wMonthDay (fun q => q) (some wModelHalf)
      wFrameMissingB 1) = false := by
  exact ⟨rfl, rfl⟩

/-- C6 amended: on an Untrained Autoregressive Forecaster,
`get_feature_importance` prints a warning and returns `None` (a
non-error value), and `predict_future` fails with sklearn's
`NotFittedError` when it reaches the regressor call; no
`ModelNotTrainedError` exists anywhere in the code. -/
theorem untrained_returns_none_and_not_fitted :
    get_feature_importance none = none ∧
    (∀ (month : ℤ → ℕ) (sqrtQ : ℚ → ℚ) (fr : Frame) (N : ℕ),
      fr.rows ≠ [] → 1 ≤ N → (∀ c ∈ weatherCols, c ∈ fr.cols) →
      predict_future month sqrtQ none fr N = .error notFittedMsg) := by
  refine ⟨rfl, ?_⟩
  intro month sqrtQ fr N _ hN hcols
  obtain ⟨N', rfl⟩ : ∃ N', N = N' + 1 := ⟨N - 1, by omega⟩
  obtain ⟨wf, hwf⟩ := weatherFeatures_ok_of_cols month fr
    (maxDate fr + (((0 : ℕ) : ℤ) + 1)) hcols
  show (weatherFeatures month fr (maxDate fr + (((0 : ℕ) : ℤ) + 1)) >>=
    fun wf => modelPredictStep none (predictStepRow sqrtQ fr 0 [] wf) >>=
      fun y => predictLoop month sqrtQ none fr N' 1
        ([] ++ [(maxDate fr + (((0 : ℕ) : ℤ) + 1), y)]))
    = .error notFittedMsg
  rw [hwf, exceptBind_ok]
  rfl

/-- C6 witness: the amended statement on the concrete untrained model,
the two-day all-columns frame and horizon 1. -/
theorem untrained_returns_none_witness :
    get_feature_importance none = none ∧
    predict_future wMonthConst (fun q => q) none wFrameFull 1
      = .error notFittedMsg :=
  ⟨untrained_returns_none_and_not_fitted.1,
    untrained_returns_none_and_not_fitted.2 wMonthConst (fun q => q)
      wFrameFull 1 (List.cons_ne_nil _ _) (by omega) (fun c hc => hc)⟩

/-- C6 counterexample: before training, `get_feature_importance`
returns the non-error value `None` rather than raising anything, and
`predict_future` fails with `NotFittedError`, which is not the claimed
`ModelNotTrainedError`. -/
theorem untrained_importance_none_not_raised :
    get_feature_importance none = none ∧
    predict_future wMonthConst (fun q => q) none wFrame8 1
      = .error notFittedMsg ∧
    notFittedMsg ≠ "ModelNotTrainedError" := by
  refine ⟨rfl, rfl, by decide⟩

/-- C10: the two covariate paths of `predict_future` are asymmetric —
the same-month median path succeeds whatever weather columns the frame
carries, but the fallback path taken when no historical observation
shares the target date's month indexes all seven weather columns of the
last observation unconditionally, so a series that both lacks one of
those columns and has no observation in the first target month makes
`predict_future` fail with `KeyError`. -/
theorem predict_future_fallback_asymmetry :
    (∀ (month : ℤ → ℕ) (sqrtQ : ℚ → ℚ) (model : Option XModel) (fr : Frame)
        (N : ℕ),
      1 ≤ N → fr.rows ≠ [] →
      (∀ r ∈ fr.rows, month r.date ≠ month (maxDate fr + 1)) →
      (∃ c ∈ weatherCols, c ∉ fr.cols) →
      predict_future month sqrtQ model fr N = .error keyErrorMsg) ∧
    (∀ (month : ℤ → ℕ) (fr : Frame) (d : ℤ),
      (∃ r ∈ fr.rows, month r.date = month d) →
      ∃ wf, weatherFeatures month fr d = .ok wf) := by
  constructor
  · intro month sqrtQ model fr N hN _ hmonth hmiss
    obtain ⟨N', rfl⟩ : ∃ N', N = N' + 1 := ⟨N - 1, by omega⟩
    have hdate : maxDate fr + (((0 : ℕ) : ℤ) + 1) = maxDate fr + 1 := by
      push_cast; ring
    have hsm : sameMonthRows month fr (maxDate fr + (((0 : ℕ) : ℤ) + 1)) = [] := by
      rw [sameMonthRows, List.filter_eq_nil_iff]
      intro r hr
      rw [hdate]
      simpa using hmonth r hr
    have hwf : weatherFeatures month fr (maxDate fr + (((0 : ℕ) : ℤ) + 1))
        = .error keyErrorMsg := by
      rw [weatherFeatures]
      rw [if_pos (by rw [hsm]; rfl), if_neg ?_]
      obtain ⟨c, hc, hnotin⟩ := hmiss
      intro hall
      rw [List.all_eq_true] at hall
      exact hnotin (List.elem_iff.mp (hall c hc))
    show (weatherFeatures month fr (maxDate fr + (((0 : ℕ) : ℤ) + 1)) >>=
      fun wf => modelPredictStep model (predictStepRow sqrtQ fr 0 [] wf) >>=
        fun y => predictLoop month sqrtQ model fr N' 1
          ([] ++ [(maxDate fr + (((0 : ℕ) : ℤ) + 1), y)]))
      = .error keyErrorMsg
    rw [hwf, exceptBind_error]
  · intro month fr d hex
    rw [weatherFeatures]
    rw [if_neg ?_]
    · exact ⟨_, rfl⟩
    · obtain ⟨r, hr, hm⟩ := hex
      intro hemp
      have hmem : r ∈ sameMonthRows month fr d := by
        rw [sameMonthRows]
        exact List.mem_filter.mpr ⟨hr, by simpa using hm⟩
      rw [List.isEmpty_iff.mp hemp] at hmem
      exact List.not_mem_nil r hmem

/-- C10 witness: the failure on the concrete one-day `PRCP`-only frame
whose observation is in another month than the target date, and the
success of the median path on the all-columns frame. -/
theorem predict_future_fallback_asymmetry_witness :
    predict_future wMonthDay (fun q => q) (some wModelHalf) wFrameMissing 1
      = .error keyErrorMsg ∧
    isOkE (weatherFeatures wMonthConst wFrameFull 5) = true := by
  refine ⟨predict_future_fallback_asymmetry.1 wMonthDay (fun q => q)
      (some wModelHalf) wFrameMissing 1 (by omega) (List.cons_ne_nil _ _)
      (by decide) ⟨"TAVG", by decide, by decide⟩, ?_⟩
  obtain ⟨wf, hwf⟩ := predict_future_fallback_asymmetry.2 wMonthConst
    wFrameFull 5 ⟨wRow 0 (1 / 2), List.mem_cons_self _ _, rfl⟩
  rw [hwf]
  rfl

/-- The trailing-`n` window of a concatenation is the trailing-`n`
window of the second part when that part is long enough. -/
theorem lastN_append_right {α : Type} (n : ℕ) (a b : List α)
    (h : n ≤ b.length) : lastN n (a ++ b) = lastN n b := by
  rw [lastN, lastN, List.length_append,
    show a.length + b.length - n = a.length + (b.length - n) by omega]
  exact List.drop_append (b.length - n)

/-- Length of a trailing window. -/
theorem lastN_length {α : Type} (n : ℕ) (l : List α) :
    (lastN n l).length = min n l.length := by
  rw [lastN, List.length_drop]
  omega

/-- Unfolding lemma: the `lag_7` entry of the `i > 0` branch. -/
theorem lagFeaturesNext_lag_7 (sqrtQ : ℚ → ℚ) (hist prior : List ℚ) :
    (lagFeaturesNext sqrtQ hist prior).lag_7
      = if 7 ≤ (lastN 7 prior).length then npMean (lastN 7 prior)
        else npMean (lastN 7 hist) := rfl

/-- Unfolding lemma: the `rolling_mean_7` entry of the `i > 0`
branch. -/
theorem lagFeaturesNext_rolling_mean (sqrtQ : ℚ → ℚ) (hist prior : List ℚ) :
    (lagFeaturesNext sqrtQ hist prior).rolling_mean_7
      = if (lastN 7 prior).isEmpty then npMean (lastN 7 hist)
        else npMean (lastN 7 prior) := rfl

/-- Unfolding lemma: the `rolling_std_7` entry of the `i > 0` branch. -/
theorem lagFeaturesNext_rolling_std (sqrtQ : ℚ → ℚ) (hist prior : List ℚ) :
    (lagFeaturesNext sqrtQ hist prior).rolling_std_7
      = if 2 ≤ (lastN 7 prior).length then sqrtQ (popVar (lastN 7 prior))
        else sqrtQ (sampleVar (lastN 7 hist)) := rfl

/-- C9 counterexample: at step 2 of the loop (one prior forecast), over
the history 0,0,0,0,0,0,0 and the single forecast 1, the code's `lag_7`
is 0 (the pure historical mean) and its `rolling_mean_7` is 1 (the pure
forecast mean), while the claimed trailing-7 mixed pool has mean 1/7:
neither feature equals the claimed pooled mean. -/
theorem lag_pool_not_mixed :
    (lagFeaturesNext (fun q => q) [0, 0, 0, 0, 0, 0, 0] [1]).lag_7
      ≠ npMean (specTrailing7Pool [0, 0, 0, 0, 0, 0, 0] [1]) ∧
    (lagFeaturesNext (fun q => q) [0, 0, 0, 0, 0, 0, 0] [1]).rolling_mean_7
      ≠ npMean (specTrailing7Pool [0, 0, 0, 0, 0, 0, 0] [1]) := by
  have h1 : (lagFeaturesNext (fun q => q) [0, 0, 0, 0, 0, 0, 0] [1]).lag_7
      = 0 := by
    rw [lagFeaturesNext_lag_7]
    norm_num [lastN, npMean]
  have h2 : npMean (specTrailing7Pool [0, 0, 0, 0, 0, 0, 0] [1]) = 1 / 7 := by
    norm_num [specTrailing7Pool, lastN, npMean]
  have h3 : (lagFeaturesNext (fun q => q)
      [0, 0, 0, 0, 0, 0, 0] [1]).rolling_mean_7 = 1 := by
    rw [lagFeaturesNext_rolling_mean]
    norm_num [lastN, npMean]
  rw [h1, h2, h3]
  constructor
  · norm_num
  · norm_num

/-- C9 amended: the lag features of step `i > 0` switch wholesale
rather than mixing pools — with at least 7 prior forecasts, `lag_7` and
`rolling_mean_7` both equal the mean of the trailing-7 pool (which then
consists of forecasts only, agreeing with the claim); with 1-6 prior
forecasts, `lag_7` is the mean of the trailing 7 actual historical
values while `rolling_mean_7` is the mean of the forecasts alone (no
filling with history); `rolling_std_7` is the population standard
deviation of the trailing forecasts alone when at least 2 exist, and
the sample standard deviation of the trailing 7 historical values
otherwise. -/
theorem lag_pool_switches_wholesale (sqrtQ : ℚ → ℚ) (hist prior : List ℚ)
    (hne : prior ≠ []) :
    (7 ≤ prior.length →
      (lagFeaturesNext sqrtQ hist prior).lag_7
        = npMean (specTrailing7Pool hist prior) ∧
      (lagFeaturesNext sqrtQ hist prior).rolling_mean_7
        = npMean (specTrailing7Pool hist prior)) ∧
    (prior.length < 7 →
      (lagFeaturesNext sqrtQ hist prior).lag_7 = npMean (lastN 7 hist) ∧
      (lagFeaturesNext sqrtQ hist prior).rolling_mean_7
        = npMean (lastN 7 prior)) ∧
    (2 ≤ prior.length →
      (lagFeaturesNext sqrtQ hist prior).rolling_std_7
        = sqrtQ (popVar (lastN 7 prior))) ∧
    (prior.length < 2 →
      (lagFeaturesNext sqrtQ hist prior).rolling_std_7
        = sqrtQ (sampleVar (lastN 7 hist))) := by
  have hlen : (lastN 7 prior).length = min 7 prior.length :=
    lastN_length 7 prior
  have hpos : 0 < prior.length := List.length_pos.mpr hne
  have hemp : (lastN 7 prior).isEmpty = false := by
    rw [List.isEmpty_eq_false, ← List.length_pos, hlen]
    omega
  refine ⟨fun h7 => ?_, fun h7 => ?_, fun h2 => ?_, fun h2 => ?_⟩
  · have hpool : specTrailing7Pool hist prior = lastN 7 prior := by
      rw [specTrailing7Pool]
      exact lastN_append_right 7 hist prior h7
    constructor
    · rw [lagFeaturesNext_lag_7, if_pos (by omega), hpool]
    · rw [lagFeaturesNext_rolling_mean, hemp, hpool]
      rfl
  · constructor
    · rw [lagFeaturesNext_lag_7, if_neg (by omega)]
    · rw [lagFeaturesNext_rolling_mean, hemp]
      rfl
  · rw [lagFeaturesNext_rolling_std, if_pos (by omega)]
  · rw [lagFeaturesNext_rolling_std, if_neg (by omega)]

/-- C9 witness: the amended statement on the concrete history `[0]` and
seven prior forecasts of 1, where the code's `lag_7` and
`rolling_mean_7` agree with the trailing-7 pooled mean. -/
theorem lag_pool_switches_wholesale_witness :
    (lagFeaturesNext (fun q => q) [0] [1, 1, 1, 1, 1, 1, 1]).lag_7
      = npMean (specTrailing7Pool [0] [1, 1, 1, 1, 1, 1, 1]) ∧
    (lagFeaturesNext (fun q => q) [0] [1, 1, 1, 1, 1, 1, 1]).rolling_mean_7
      = npMean (specTrailing7Pool [0] [1, 1, 1, 1, 1, 1, 1]) :=
  (lag_pool_switches_wholesale (fun q => q) [0] [1, 1, 1, 1, 1, 1, 1]
    (by decide)).1 (by decide)

/-- Counting the indices at least 7 in `range n`. -/
theorem countP_range_ge7 (n : ℕ) :
    (List.range n).countP (fun j => 7 ≤ j) = n - 7 := by
  induction n with
  | zero => rfl
  | succ n ih =>
    rw [List.range_succ, List.countP_append, ih]
    by_cases h : 7 ≤ n
    · have hone : List.countP (fun j => decide (7 ≤ j)) [n] = 1 := by
        simp [List.countP_cons, h]
      rw [hone]
      omega
    · have hzero : List.countP (fun j => decide (7 ≤ j)) [n] = 0 := by
        simp [List.countP_cons, h]
      rw [hzero]
      omega

/-- A featurized row survives the dropna exactly when its 0-based
position is at least 7 (positions run below the score count). -/
theorem keptRow_featurizeRow (sqrtQ : ℚ → ℚ) (cols : List String)
    (scores : List ℚ) (p : ℕ × Row) (hp : p.1 < scores.length) :
    keptRow (featurizeRow sqrtQ cols scores p) = decide (7 ≤ p.1) := by
  simp only [keptRow, featurizeRow]
  by_cases h7 : 7 ≤ p.1
  · rw [if_pos (show 1 ≤ p.1 by omega), if_pos h7,
      if_pos (show 6 ≤ p.1 by omega),
      List.get?_eq_get (show p.1 - 1 < scores.length by omega),
      List.get?_eq_get (show p.1 - 7 < scores.length by omega)]
    simp [h7]
  · rw [if_neg h7]
    simp [h7]

/-- The row counts of the feature matrix and the target vector are both
`len(series) - 7` (truncated at 0). -/
theorem prepare_features_length (sqrtQ : ℚ → ℚ) (fr : Frame) :
    (prepare_features sqrtQ fr).1.length = fr.rows.length - 7 ∧
    (prepare_features sqrtQ fr).2.length = fr.rows.length - 7 := by
  have hrows : (sortRowsByDate fr.rows).length = fr.rows.length :=
    List.length_insertionSort _ _
  have hkept : (((sortRowsByDate fr.rows).enum.map
      (featurizeRow sqrtQ fr.cols
        ((sortRowsByDate fr.rows).map (·.score)))).filter keptRow).length
      = fr.rows.length - 7 := by
    set rows := sortRowsByDate fr.rows with hr
    set scores := rows.map (·.score) with hs
    have hslen : scores.length = rows.length := List.length_map _ _
    rw [List.filter_map, List.length_map, ← List.countP_eq_length_filter]
    have hcong : rows.enum.countP
        (keptRow ∘ featurizeRow sqrtQ fr.cols scores)
        = rows.enum.countP (fun q => decide (7 ≤ q.1)) := by
      apply List.countP_congr
      intro x hx
      have hxlt : x.1 < rows.length := by
        simpa using List.fst_lt_add_of_mem_enumFrom hx
      rw [Function.comp_apply,
        keptRow_featurizeRow sqrtQ fr.cols scores x (by omega)]
    rw [hcong]
    have hfst : List.map Prod.fst rows.enum = List.range rows.length := by
      rw [List.range_eq_range']
      exact List.enumFrom_map_fst 0 rows
    have hpull : rows.enum.countP (fun q => decide (7 ≤ q.1))
        = (List.range rows.length).countP (fun j => decide (7 ≤ j)) := by
      rw [← hfst, List.countP_map]
      rfl
    rw [hpull, countP_range_ge7, hrows]
  constructor
  · simp only [prepare_features]
    rw [List.length_map]
    exact hkept
  · simp only [prepare_features]
    rw [List.length_map]
    exact hkept

/-- Every surviving feature row has all four derived values present:
the dropna guard forces the three listed columns, and `rolling_std_7`
shares `rolling_mean_7`'s window guard. -/
theorem prepare_features_no_missing (sqrtQ : ℚ → ℚ) (fr : Frame) :
    ∀ row ∈ (prepare_features sqrtQ fr).1,
      row.lag_1.isSome ∧ row.lag_7.isSome ∧ row.rolling_mean_7.isSome ∧
        row.rolling_std_7.isSome := by
  intro row hrow
  simp only [prepare_features] at hrow
  obtain ⟨q, hq, rfl⟩ := List.mem_map.mp hrow
  have hfil := List.mem_filter.mp hq
  obtain ⟨p, _, rfl⟩ := List.mem_map.mp hfil.1
  have hkept := hfil.2
  simp only [keptRow, featurizeRow, Bool.and_eq_true] at hkept
  obtain ⟨⟨h1, h7⟩, h6⟩ := hkept
  refine ⟨h1, h7, h6, ?_⟩
  by_cases hg : 6 ≤ p.1
  · simp [featurizeRow, hg]
  · rw [if_neg hg] at h6
    simp at h6

/-- C4: for every series with at least 8 observations, the Feature
Engineer returns a feature matrix and target vector of the same row
count `len(series) - 7`, and no surviving row is missing `lag_1`,
`lag_7`, `rolling_mean_7` or `rolling_std_7`. -/
theorem feature_engineer_row_count_and_no_missing (sqrtQ : ℚ → ℚ)
    (fr : Frame) (h8 : 8 ≤ fr.rows.length) :
    (prepare_features sqrtQ fr).1.length = fr.rows.length - 7 ∧
    (prepare_features sqrtQ fr).2.length
      = (prepare_features sqrtQ fr).1.length ∧
    ∀ row ∈ (prepare_features sqrtQ fr).1,
      row.lag_1.isSome ∧ row.lag_7.isSome ∧ row.rolling_mean_7.isSome ∧
        row.rolling_std_7.isSome := by
  obtain ⟨hX, hy⟩ := prepare_features_length sqrtQ fr
  exact ⟨hX, by rw [hX, hy], prepare_features_no_missing sqrtQ fr⟩

/-- C4 witness: the statement on the concrete eight-day frame. -/
theorem feature_engineer_witness :
    (prepare_features (fun q => q) wFrame8).1.length
      = wFrame8.rows.length - 7 ∧
    (prepare_features (fun q => q) wFrame8).2.length
      = (prepare_features (fun q => q) wFrame8).1.length :=
  ⟨(feature_engineer_row_count_and_no_missing (fun q => q) wFrame8
      (by decide)).1,
    (feature_engineer_row_count_and_no_missing (fun q => q) wFrame8
      (by decide)).2.1⟩

/-- C5 amended: no `InsufficientDataError` exists — for fewer than 8
observations the Feature Engineer returns an empty feature matrix and
target (no exception), and `evaluate` with `len(series) < test_days +
30` prints a warning and returns the `None` sentinel. -/
theorem insufficient_data_returns_empty_or_none :
    (∀ (sqrtQ : ℚ → ℚ) (fr : Frame), fr.rows.length < 8 →
      (prepare_features sqrtQ fr).1 = [] ∧
      (prepare_features sqrtQ fr).2 = []) ∧
    (∀ (month : ℤ → ℕ) (sqrtQ : ℚ → ℚ) (fitP : Frame → ProphetFitted)
        (fitX : Frame → XModel) (pw xw : ℚ) (fr : Frame) (td : ℕ),
      fr.rows.length < td + 30 →
      evaluate month sqrtQ fitP fitX pw xw fr td = .ok none) := by
  constructor
  · intro sqrtQ fr hlt
    obtain ⟨hX, hy⟩ := prepare_features_length sqrtQ fr
    constructor
    · exact List.length_eq_zero.mp (by omega)
    · exact List.length_eq_zero.mp (by omega)
  · intro month sqrtQ fitP fitX pw xw fr td hlt
    simp only [evaluate]
    rw [if_pos hlt]

/-- C5 witness: the amended statement on the concrete five-day frame
(feature engineering) and the same frame with `test_days = 35`
(evaluation). -/
theorem insufficient_data_witness :
    ((prepare_features (fun q => q) wFrame5).1 = [] ∧
      (prepare_features (fun q => q) wFrame5).2 = []) ∧
    evaluate wMonthConst (fun q => q) (fun _ => ⟨[], fun _ => 0⟩)
      (fun _ => wModelHalf) (1 / 2) (1 / 2) wFrame5 35 = .ok none :=
  ⟨insufficient_data_returns_empty_or_none.1 (fun q => q) wFrame5 (by decide),
    insufficient_data_returns_empty_or_none.2 wMonthConst (fun q => q)
      (fun _ => ⟨[], fun _ => 0⟩) (fun _ => wModelHalf) (1 / 2) (1 / 2)
      wFrame5 35 (by decide)⟩

/-- C5 counterexample: on the concrete five-row series the Feature
Engineer returns an empty pair instead of raising anything, and
`evaluate` with `test_days = 30` returns the `None` sentinel instead of
raising: no `InsufficientDataError` is ever raised. -/
theorem insufficient_data_no_error_raised :
    (prepare_features (fun q => q) wFrame5).1 = [] ∧
    (prepare_features (fun q => q) wFrame5).2 = [] ∧
    evaluate wMonthConst (fun q => q) (fun _ => ⟨[], fun _ => 0⟩)
      (fun _ => wModelHalf) 1 1 wFrame5 30 = .ok none := by
  refine ⟨by rfl, by rfl, by rfl⟩

/-- C7 witness: the amended statement at the concrete inputs `H = 30`,
`k = 1`, `k' = 30`. -/
theorem adaptive_weight_monotone_floored_witness :
    adaptive_xgb_weight 1 30
      = max (3 / 10) (8 / 10 - (((1 : ℕ) : ℚ) / ((30 : ℕ) : ℚ)) * (5 / 10)) ∧
    3 / 10 ≤ adaptive_xgb_weight 1 30 ∧
    adaptive_xgb_weight 30 30 ≤ adaptive_xgb_weight 1 30 ∧
    adaptive_prophet_weight 1 30 + adaptive_xgb_weight 1 30 = 1 ∧
    adaptive_xgb_weight 30 30 = 3 / 10 :=
  adaptive_weight_monotone_floored 30 1 30 (by norm_num) (by norm_num)
    (by norm_num)

end DataJam
